import Mathlib

/-!
# SaveMyMoney ML API — verification of the forecasting endpoints

Shallow embedding of `src/ml-api/app/routers/predictions.py` and
`src/ml-api/app/models/schemas.py`.  Amounts are modelled as exact
rationals (`ℚ`), calendar dates as day indices (`Nat`).  The two
predictor classes (`app.ml.linear_predictor.LinearPredictor`,
`app.ml.lstm_predictor.LSTMPredictor`) are imported by the router but
their source files are not part of the repository snapshot; the router
treats them as black boxes (`predictor.predict(transactions, days_ahead)`
either returns a result dictionary or raises), so the embedding passes
them in as function parameters of type `Predictor`.  A concrete
`LinearPredictor` modelled from the specification is provided separately
for instantiating theorems at concrete inputs.

Python exceptions are modelled with `Except`: a predictor call returns
`Except PyErr ForecastResult` (a raised `ValueError` and any other
exception are the two kinds distinguished by the router's handlers), and
an endpoint returns `Except HTTPError α`, `HTTPError` carrying the HTTP
status code and detail string of the response.
-/

namespace SaveMyMoney

/-- A stored transaction document, with the fields the router reads
(`user`, `date`, `amount`, `category`, `type`); `description` and `_id`
are never used by the prediction code and are omitted. -/
structure Transaction where
  user : String
  date : Nat
  amount : ℚ
  category : String
  type : String
deriving Repr, DecidableEq

/-- One forecast point of a predictor result (schema `PredictionPoint`);
the calendar date is a day index. -/
structure PredictionPoint where
  date : Nat
  predicted_amount : ℚ
  confidence_lower : Option ℚ := none
  confidence_upper : Option ℚ := none
deriving Repr, DecidableEq

/-- The result dictionary produced by `predictor.predict(...)`:
keys `predictions`, `accuracy_score` (optional), `total_predicted`,
`avg_daily_spending`, `trend`. -/
structure ForecastResult where
  predictions : List PredictionPoint
  accuracy_score : Option ℚ
  total_predicted : ℚ
  avg_daily_spending : ℚ
  trend : String
deriving Repr, DecidableEq

/-- A Python exception raised by a predictor: the router's handlers
distinguish `ValueError` (mapped to status 400 in `predict_expenses`)
from every other exception. -/
inductive PyErr where
  | valueError (msg : String)
  | other (msg : String)
deriving Repr, DecidableEq

/-- `str(e)` of a predictor exception: the exception message. -/
def strOfErr : PyErr → String
  | .valueError m => m
  | .other m => m

/-- A predictor object as the router sees it: `predict(transactions,
days_ahead)` returns a result or raises. -/
abbrev Predictor := List Transaction → Int → Except PyErr ForecastResult

/-- An exception in flight inside an endpoint body: either a raised
`fastapi.HTTPException` or a predictor exception. -/
inductive PyExc where
  | http (status : Nat) (detail : String)
  | err (e : PyErr)
deriving Repr, DecidableEq

/-- `str(e)` for exceptions caught by an endpoint's blanket handler;
Starlette's `HTTPException.__str__` is `f"{status_code}: {detail}"`. -/
def strOfExc : PyExc → String
  | .http s d => s!"{s}: {d}"
  | .err e => strOfErr e

/-- An HTTP error response as produced by raising `HTTPException`. -/
structure HTTPError where
  status_code : Nat
  detail : String
deriving Repr, DecidableEq

/-- Schema `PredictionRequest` (`app/models/schemas.py`): pydantic
enforces `days_ahead ∈ 1..365` (`ge=1, le=365`) and
`model_type ~ ^(linear|lstm)$` at construction. -/
structure PredictionRequest where
  user_id : String
  category : Option String
  days_ahead : Int
  model_type : String
deriving Repr, DecidableEq

/-- The pydantic pattern `^(linear|lstm)$` on `model_type`. -/
def validModelType (mt : String) : Bool := mt == "linear" || mt == "lstm"

/-- Pydantic validation performed when a `PredictionRequest` is
constructed: out-of-range `days_ahead` or a `model_type` not matching
the pattern is a `ValidationError`. -/
def PredictionRequest.validate (user_id : String) (category : Option String)
    (days_ahead : Int) (model_type : String) : Except String PredictionRequest :=
  if days_ahead < 1 || days_ahead > 365 then
    .error "days_ahead out of range 1..365"
  else if !(validModelType model_type) then
    .error "model_type does not match pattern (linear|lstm)"
  else
    .ok ⟨user_id, category, days_ahead, model_type⟩

/-- Schema `PredictionResponse` (the wall-clock `created_at` field is
omitted from the embedding). -/
structure PredictionResponse where
  user_id : String
  category : Option String
  predictions : List PredictionPoint
  model_type : String
  accuracy_score : Option ℚ
  total_predicted : ℚ
  avg_daily_spending : ℚ
  trend : String
deriving Repr, DecidableEq

/-- Schema `CategoryInsights`. -/
structure CategoryInsights where
  category : String
  current_avg : ℚ
  predicted_avg : ℚ
  trend : String
  recommendation : String
deriving Repr, DecidableEq

/-- Schema `InsightsResponse` (wall-clock `created_at` omitted). -/
structure InsightsResponse where
  user_id : String
  total_predicted_spending : ℚ
  categories : List CategoryInsights
  overall_trend : String
deriving Repr, DecidableEq

/-- The Mongo query filter of `get_user_transactions`:
`{"user": user_id, "type": "expense"}` plus the optional category. -/
def fetchPred (user_id : String) (category : Option String) (t : Transaction) : Bool :=
  t.user == user_id && t.type == "expense" &&
    (match category with
     | some c => t.category == c
     | none => true)

/-- `get_user_transactions`: filter the store by user, `type = "expense"`
and optional category, sort ascending by date, take at most 1000
documents (`to_list(length=1000)`).  Mongo's sort is modelled by a
stable structural sort on the date key. -/
def get_user_transactions (store : List Transaction) (user_id : String)
    (category : Option String) : List Transaction :=
  (((store.filter (fetchPred user_id category)).insertionSort
      (fun a b => a.date ≤ b.date)).take 1000)

/-- Message of the `trend == "increasing"` branch of
`_generate_recommendation`; the Python `{pct:.1f}` float formatting is
abstracted to the exact rational. -/
def recMsgInc (pct : ℚ) : String :=
  s!"Seus gastos nesta categoria estão aumentando (~{pct}%). Considere estabelecer um limite."

/-- Message of the `trend == "decreasing"` branch. -/
def recMsgDec (pct : ℚ) : String :=
  s!"Ótimo! Seus gastos estão diminuindo (~{pct}%). Continue assim!"

/-- Message of the final (stable) branch. -/
def recMsgStable : String := "Seus gastos estão estáveis. Mantenha o controle!"

/-- `_generate_recommendation(trend, predicted_avg, current_avg)`. -/
def _generate_recommendation (trend : String) (predicted_avg current_avg : ℚ) : String :=
  if trend == "increasing" then
    let increase_pct := if current_avg > 0 then (predicted_avg - current_avg) / current_avg * 100 else 0
    recMsgInc increase_pct
  else if trend == "decreasing" then
    let decrease_pct := if current_avg > 0 then (current_avg - predicted_avg) / current_avg * 100 else 0
    recMsgDec decrease_pct
  else
    recMsgStable

/-- Body of `POST /predict` (`predict_expenses`) before its `except`
clauses: fetch, 404 on empty data, model selection (503 when `lstm` is
requested without TensorFlow), then the predictor call.  `tf` is the
module flag `TENSORFLOW_AVAILABLE`; `linear` and `lstm7` are the
`LinearPredictor()` and `LSTMPredictor(lookback=7)` objects. -/
def predict_expenses_body (store : List Transaction) (tf : Bool)
    (linear lstm7 : Predictor) (request : PredictionRequest) :
    Except PyExc PredictionResponse :=
  let transactions := get_user_transactions store request.user_id request.category
  if transactions.isEmpty then
    .error (.http 404 "No transaction data found for this user")
  else
    let sel : Except PyExc Predictor :=
      if request.model_type == "lstm" then
        if !tf then
          .error (.http 503 "LSTM model not available. TensorFlow is not installed. Using linear regression instead.")
        else
          .ok lstm7
      else
        .ok linear
    match sel with
    | .error e => .error e
    | .ok predictor =>
      match predictor transactions request.days_ahead with
      | .error e => .error (.err e)
      | .ok result =>
        .ok { user_id := request.user_id
              category := request.category
              predictions := result.predictions
              model_type := request.model_type
              accuracy_score := result.accuracy_score
              total_predicted := result.total_predicted
              avg_daily_spending := result.avg_daily_spending
              trend := result.trend }

/-- `predict_expenses` with its exception handlers: `except ValueError`
maps to status 400; `except Exception` (which also catches the
`HTTPException`s raised in the body — there is no
`except HTTPException: raise` clause in this endpoint) maps to status
500 with detail `f"Prediction error: {str(e)}"`. -/
def predict_expenses (store : List Transaction) (tf : Bool)
    (linear lstm7 : Predictor) (request : PredictionRequest) :
    Except HTTPError PredictionResponse :=
  match predict_expenses_body store tf linear lstm7 request with
  | .ok r => .ok r
  | .error (.err (.valueError m)) => .error ⟨400, m⟩
  | .error e => .error ⟨500, "Prediction error: " ++ strOfExc e⟩

/-- The `POST /predict` route as seen by a client: FastAPI validates the
request body against `PredictionRequest` (rejecting it with a 422
response) before the handler runs. -/
def predict_expenses_route (store : List Transaction) (tf : Bool)
    (linear lstm7 : Predictor) (user_id : String) (category : Option String)
    (days_ahead : Int) (model_type : String) : Except HTTPError PredictionResponse :=
  match PredictionRequest.validate user_id category days_ahead model_type with
  | .error _ => .error ⟨422, "Unprocessable Entity"⟩
  | .ok request => predict_expenses store tf linear lstm7 request

/-- `GET /category/{user_id}/{category}` (`predict_category`): builds a
`PredictionRequest` from its four parameters and delegates to
`predict_expenses`.  A pydantic `ValidationError` raised by the
construction inside the handler is an unhandled exception, rendered as
a 500 Internal Server Error. -/
def predict_category (store : List Transaction) (tf : Bool)
    (linear lstm7 : Predictor) (user_id category : String)
    (days_ahead : Int) (model_type : String) : Except HTTPError PredictionResponse :=
  match PredictionRequest.validate user_id (some category) days_ahead model_type with
  | .error _ => .error ⟨500, "Internal Server Error"⟩
  | .ok request => predict_expenses store tf linear lstm7 request

/-- `df['amount'].mean()` over a category's transactions. -/
def listMean (l : List ℚ) : ℚ := l.sum / (l.length : ℚ)

/-- The per-category filter inside the insights loop:
`[t for t in transactions if t['category'] == category]`. -/
def catTxns (transactions : List Transaction) (category : String) : List Transaction :=
  transactions.filter (fun t => t.category == category)

/-- One iteration of the category loop of `get_spending_insights`:
skip the category when it has fewer than 2 transactions, absorb any
predictor exception (`except Exception: continue`), and otherwise append
a `CategoryInsights` and accumulate `total_predicted`. -/
def categoryStep (linear : Predictor) (days_ahead : Int)
    (transactions : List Transaction) (acc : List CategoryInsights × ℚ)
    (category : String) : List CategoryInsights × ℚ :=
  let cat_transactions := catTxns transactions category
  if cat_transactions.length < 2 then acc
  else
    match linear cat_transactions days_ahead with
    | .error _ => acc
    | .ok result =>
      let current_avg := listMean (cat_transactions.map (fun t => t.amount))
      (acc.1 ++ [{ category := category
                   current_avg := current_avg
                   predicted_avg := result.avg_daily_spending
                   trend := result.trend
                   recommendation := _generate_recommendation result.trend
                     result.avg_daily_spending current_avg }],
       acc.2 + result.total_predicted)

/-- The overall-trend computation at the end of `get_spending_insights`:
strict majority between the `"increasing"` and `"decreasing"` counts,
ties giving `"stable"`. -/
def overallTrend (category_insights : List CategoryInsights) : String :=
  let increasing_count := category_insights.countP (fun ci => ci.trend == "increasing")
  let decreasing_count := category_insights.countP (fun ci => ci.trend == "decreasing")
  if increasing_count > decreasing_count then "increasing"
  else if decreasing_count > increasing_count then "decreasing"
  else "stable"

/-- `GET /insights/{user_id}` (`get_spending_insights`): fetch all
expense transactions of the user, 404 on empty data, loop over the
distinct categories (Python's `list(set(...))` has unspecified order;
`dedup` is one such enumeration and no theorem below depends on the
order), and assemble the response.  The endpoint's
`except HTTPException: raise` clause re-raises the 404 unchanged, and
nothing else in the (pure) body can raise, so the blanket
`except Exception` handler is unreachable. -/
def get_spending_insights (store : List Transaction) (linear : Predictor)
    (user_id : String) (days_ahead : Int) : Except HTTPError InsightsResponse :=
  let transactions := get_user_transactions store user_id none
  if transactions.isEmpty then
    .error ⟨404, "No transaction data found for this user"⟩
  else
    let categories := (transactions.map (fun t => t.category)).dedup
    let acc := categories.foldl (categoryStep linear days_ahead transactions) ([], 0)
    .ok { user_id := user_id
          total_predicted_spending := acc.2
          categories := acc.1
          overall_trend := overallTrend acc.1 }

/-- The per-model summary block built by `compare_models`
(`accuracy_score` uses `.get("accuracy_score", 0.0)`). -/
structure ModelSummary where
  total_predicted : ℚ
  avg_daily_spending : ℚ
  trend : String
  accuracy_score : ℚ
deriving Repr, DecidableEq

/-- The `lstm` part of the comparison result: a summary, the
`lstm_error` string, or the fixed "Not available" message. -/
inductive LstmEntry where
  | result (s : ModelSummary)
  | errorMsg (m : String)
  | unavailable (m : String)
deriving Repr, DecidableEq

/-- The loose result dictionary of `compare_models`. -/
structure CompareResult where
  user_id : String
  days_ahead : Int
  linear_regression : ModelSummary
  lstm : LstmEntry
deriving Repr, DecidableEq

/-- `GET /compare/{user_id}` (`compare_models`): 404 on empty data; a
failing linear prediction escapes to the blanket handler (status 500,
`f"Comparison error: {str(e)}"`); the LSTM prediction runs only when
TensorFlow is available and at least 8 transactions exist, its failure
being absorbed into the `lstm_error` field.  `lstmD` is the
`LSTMPredictor()` object constructed with its default lookback. -/
def compare_models (store : List Transaction) (tf : Bool)
    (linear lstmD : Predictor) (user_id : String) (days_ahead : Int) :
    Except HTTPError CompareResult :=
  let transactions := get_user_transactions store user_id none
  if transactions.isEmpty then
    .error ⟨404, "No transaction data found for this user"⟩
  else
    match linear transactions days_ahead with
    | .error e => .error ⟨500, "Comparison error: " ++ strOfErr e⟩
    | .ok linear_result =>
      let base : ModelSummary :=
        { total_predicted := linear_result.total_predicted
          avg_daily_spending := linear_result.avg_daily_spending
          trend := linear_result.trend
          accuracy_score := linear_result.accuracy_score.getD 0 }
      let lstmEntry : LstmEntry :=
        if tf && decide (8 ≤ transactions.length) then
          match lstmD transactions days_ahead with
          | .ok r =>
            .result { total_predicted := r.total_predicted
                      avg_daily_spending := r.avg_daily_spending
                      trend := r.trend
                      accuracy_score := r.accuracy_score.getD 0 }
          | .error e => .errorMsg (strOfErr e)
        else
          .unavailable "Not available (requires TensorFlow and at least 8 days of data)"
      .ok { user_id := user_id
            days_ahead := days_ahead
            linear_regression := base
            lstm := lstmEntry }

/-- Modelled from the spec: `app/ml/linear_predictor.py` is imported by
the router but its source file is missing from the repository snapshot.
Following spec §4.1 (TimeSeriesAggregator), transactions are grouped by
calendar day (sum of amounts) and the range `[minDate, maxDate]` is
gap-filled with `0`; the first component is `minDate`. -/
def aggregateSeries (transactions : List Transaction) : Nat × List ℚ :=
  match transactions.map (fun t => t.date) with
  | [] => (0, [])
  | d :: ds =>
    let lo := ds.foldl Nat.min d
    let hi := ds.foldl Nat.max d
    (lo, (List.range (hi - lo + 1)).map (fun i =>
      ((transactions.filter (fun t => t.date == lo + i)).map (fun t => t.amount)).sum))

/-- Modelled from the spec: the `LinearPredictor.predict` of the missing
`app/ml/linear_predictor.py`, following spec §4.2 — ordinary
least-squares fit over the gap-filled daily series, at least 2 days
required (`InsufficientDataError`, raised as a `ValueError`), forecasts
clamped at `0`, R² accuracy defined as `0` on zero variance, trend from
the §4.4 classifier with threshold `0.01`.  The §4.2 confidence bounds
would require a square root (irrational), are not used by any claim
below, and are left `none`. -/
def modelLinear : Predictor := fun transactions days_ahead =>
  let s := aggregateSeries transactions
  let lo := s.1
  let series := s.2
  if series.length < 2 then
    .error (.valueError "Insufficient data: need at least 2 days of transaction history")
  else
    let n : ℚ := (series.length : ℚ)
    let xs : List ℚ := (List.range series.length).map (fun i => (i : ℚ))
    let sx := xs.sum
    let sy := series.sum
    let sxy := ((xs.zip series).map (fun p => p.1 * p.2)).sum
    let sxx := (xs.map (fun x => x * x)).sum
    let a := (n * sxy - sx * sy) / (n * sxx - sx * sx)
    let b := (sy - a * sx) / n
    let preds : List PredictionPoint := (List.range days_ahead.toNat).map (fun k =>
      { date := lo + series.length + k
        predicted_amount := max (a * ((series.length + k : ℕ) : ℚ) + b) 0 })
    let total := (preds.map (fun p => p.predicted_amount)).sum
    let meanY := sy / n
    let trend :=
      if meanY = 0 then "stable"
      else if |a| / meanY < 1 / 100 then "stable"
      else if a > 0 then "increasing" else "decreasing"
    let residuals := (xs.zip series).map (fun p => p.2 - (a * p.1 + b))
    let ssRes := (residuals.map (fun r => r * r)).sum
    let ssTot := (series.map (fun y => (y - meanY) * (y - meanY))).sum
    let r2 := if ssTot = 0 then 0 else 1 - ssRes / ssTot
    .ok { predictions := preds
          accuracy_score := some r2
          total_predicted := total
          avg_daily_spending := total / (days_ahead : ℚ)
          trend := trend }

/-- A small concrete store: two expense transactions of user `u1` in
category `food` on consecutive days. -/
def demoStore : List Transaction :=
  [{ user := "u1", date := 0, amount := 10, category := "food", type := "expense" },
   { user := "u1", date := 1, amount := 20, category := "food", type := "expense" }]

/-- A concrete predictor result used to instantiate oracle hypotheses. -/
def demoForecast : ForecastResult :=
  { predictions := [{ date := 2, predicted_amount := 5 }]
    accuracy_score := some 1
    total_predicted := 5
    avg_daily_spending := 5
    trend := "stable" }

/-- Whether the insights loop keeps a category: at least 2 transactions
and a successful per-category prediction. -/
def includedCat (linear : Predictor) (days_ahead : Int)
    (tx : List Transaction) (c : String) : Bool :=
  if (catTxns tx c).length < 2 then false
  else
    match linear (catTxns tx c) days_ahead with
    | .ok _ => true
    | .error _ => false

/-- The `CategoryInsights` value the insights loop appends for a kept
category (the `.error` branch is never reached for kept categories). -/
def mkInsight (linear : Predictor) (days_ahead : Int)
    (tx : List Transaction) (c : String) : CategoryInsights :=
  match linear (catTxns tx c) days_ahead with
  | .ok result =>
    let current_avg := listMean ((catTxns tx c).map (fun t => t.amount))
    { category := c
      current_avg := current_avg
      predicted_avg := result.avg_daily_spending
      trend := result.trend
      recommendation := _generate_recommendation result.trend
        result.avg_daily_spending current_avg }
  | .error _ => { category := c, current_avg := 0, predicted_avg := 0, trend := "", recommendation := "" }

/-- The `total_predicted` contribution of a kept category. -/
def totalFrom (linear : Predictor) (days_ahead : Int)
    (tx : List Transaction) (c : String) : ℚ :=
  match linear (catTxns tx c) days_ahead with
  | .ok result => result.total_predicted
  | .error _ => 0

theorem isEmpty_false_of_ne_nil {α : Type} {l : List α} (h : l ≠ []) :
    l.isEmpty = false := by
  cases l with
  | nil => exact absurd rfl h
  | cons a t => rfl

theorem mkInsight_category (linear : Predictor) (d : Int)
    (tx : List Transaction) (c : String) : (mkInsight linear d tx c).category = c := by
  unfold mkInsight
  rcases h : linear (catTxns tx c) d with e | r <;> simp

theorem map_category_mkInsight (linear : Predictor) (d : Int)
    (tx : List Transaction) : ∀ L : List String,
    (L.map (mkInsight linear d tx)).map (fun ci => ci.category) = L := by
  intro L
  induction L with
  | nil => rfl
  | cons c cs ih => simp [mkInsight_category, ih]

/-- Characterization of the insights category loop: the fold keeps
exactly the categories passing `includedCat`, appending their
`mkInsight` records and summing their `totalFrom` contributions. -/
theorem categoryStep_foldl (linear : Predictor) (d : Int) (tx : List Transaction) :
    ∀ (cats : List String) (acc : List CategoryInsights × ℚ),
    (cats.foldl (categoryStep linear d tx) acc).1
        = acc.1 ++ ((cats.filter (includedCat linear d tx)).map (mkInsight linear d tx))
      ∧ (cats.foldl (categoryStep linear d tx) acc).2
        = acc.2 + ((cats.filter (includedCat linear d tx)).map (totalFrom linear d tx)).sum := by
  intro cats
  induction cats with
  | nil => intro acc; simp
  | cons c cs ih =>
    intro acc
    by_cases hlen : (catTxns tx c).length < 2
    · have hstep : categoryStep linear d tx acc c = acc := by
        simp [categoryStep, hlen]
      have hinc : includedCat linear d tx c = false := by
        simp [includedCat, hlen]
      simpa [List.foldl_cons, hstep, hinc] using ih acc
    · rcases hres : linear (catTxns tx c) d with e | r
      · have hstep : categoryStep linear d tx acc c = acc := by
          simp [categoryStep, hlen, hres]
        have hinc : includedCat linear d tx c = false := by
          simp [includedCat, hlen, hres]
        simpa [List.foldl_cons, hstep, hinc] using ih acc
      · have hstep : categoryStep linear d tx acc c
            = (acc.1 ++ [mkInsight linear d tx c], acc.2 + r.total_predicted) := by
          simp [categoryStep, hlen, hres, mkInsight]
        have hinc : includedCat linear d tx c = true := by
          simp [includedCat, hlen, hres]
        have htot : totalFrom linear d tx c = r.total_predicted := by
          simp [totalFrom, hres]
        have := ih (acc.1 ++ [mkInsight linear d tx c], acc.2 + r.total_predicted)
        simp only [List.foldl_cons, hstep, hinc, List.filter_cons_of_pos, List.map_cons,
          List.sum_cons] at this ⊢
        constructor
        · rw [this.1]; simp
        · rw [this.2, htot]; ring

/-- The accumulator produced by the insights loop of
`get_spending_insights`. -/
def insightsAcc (store : List Transaction) (linear : Predictor)
    (user_id : String) (days_ahead : Int) : List CategoryInsights × ℚ :=
  let transactions := get_user_transactions store user_id none
  ((transactions.map (fun t => t.category)).dedup).foldl
    (categoryStep linear days_ahead transactions) ([], 0)

/-- On a non-empty fetched transaction list, `get_spending_insights`
always succeeds, returning the response assembled from the loop
accumulator. -/
theorem insights_ok (store : List Transaction) (linear : Predictor)
    (user_id : String) (days_ahead : Int)
    (h : get_user_transactions store user_id none ≠ []) :
    get_spending_insights store linear user_id days_ahead =
      .ok { user_id := user_id
            total_predicted_spending := (insightsAcc store linear user_id days_ahead).2
            categories := (insightsAcc store linear user_id days_ahead).1
            overall_trend := overallTrend (insightsAcc store linear user_id days_ahead).1 } := by
  simp only [get_spending_insights, insightsAcc, isEmpty_false_of_ne_nil h,
    Bool.false_eq_true, if_false]

/-- Membership in the kept-categories list of the insights loop. -/
theorem mem_insightsAcc_categories (store : List Transaction) (linear : Predictor)
    (user_id : String) (days_ahead : Int) (c : String) :
    (c ∈ ((insightsAcc store linear user_id days_ahead).1).map (fun ci => ci.category))
      ↔ (c ∈ (get_user_transactions store user_id none).map (fun t => t.category)
          ∧ includedCat linear days_ahead (get_user_transactions store user_id none) c = true) := by
  unfold insightsAcc
  rw [(categoryStep_foldl linear days_ahead (get_user_transactions store user_id none)
        ((( get_user_transactions store user_id none).map (fun t => t.category)).dedup) ([], 0)).1]
  simp only [List.nil_append, map_category_mkInsight, List.mem_filter, List.mem_dedup]

/-- The total accumulated by the insights loop is the sum of the kept
categories' contributions. -/
theorem insightsAcc_total (store : List Transaction) (linear : Predictor)
    (user_id : String) (days_ahead : Int) :
    (insightsAcc store linear user_id days_ahead).2
      = ((((get_user_transactions store user_id none).map (fun t => t.category)).dedup.filter
            (includedCat linear days_ahead (get_user_transactions store user_id none))).map
          (totalFrom linear days_ahead (get_user_transactions store user_id none))).sum := by
  unfold insightsAcc
  rw [(categoryStep_foldl linear days_ahead (get_user_transactions store user_id none)
        ((( get_user_transactions store user_id none).map (fun t => t.category)).dedup) ([], 0)).2]
  simp

/-- Filtering a store to its expense rows first does not change any
filter that itself requires `type = "expense"`. -/
theorem filter_expense_absorb (P : Transaction → Bool)
    (hP : ∀ t, P t = true → t.type == "expense") :
    ∀ l : List Transaction,
    (l.filter (fun t => t.type == "expense")).filter P = l.filter P := by
  intro l
  induction l with
  | nil => rfl
  | cons t ts ih =>
    by_cases hx : (t.type == "expense") = true
    · simp only [List.filter_cons, hx, if_true]
      by_cases hp : P t = true
      · simp [hp, ih]
      · simp [hp, ih]
    · have hPt : P t = false := by
        cases hpt : P t
        · rfl
        · exact absurd (hP t hpt) (by simpa using hx)
      simp [List.filter_cons, hx, hPt, ih]

/-- `fetchPred` only accepts expense rows. -/
theorem fetchPred_expense (user_id : String) (category : Option String)
    (t : Transaction) (h : fetchPred user_id category t = true) :
    (t.type == "expense") = true := by
  have := h
  simp only [fetchPred, Bool.and_eq_true] at this
  exact this.1.2

/-- `get_user_transactions` is unchanged by pre-filtering the store to
expense rows. -/
theorem get_user_transactions_filter_expense (store : List Transaction)
    (user_id : String) (category : Option String) :
    get_user_transactions (store.filter (fun t => t.type == "expense")) user_id category
      = get_user_transactions store user_id category := by
  unfold get_user_transactions
  rw [filter_expense_absorb (fetchPred user_id category)
    (fun t h => fetchPred_expense user_id category t h) store]

/-- Majority-vote reading of the overall-trend computation. -/
theorem overallTrend_spec (L : List CategoryInsights) :
    ((L.countP (fun ci => ci.trend == "decreasing")
        < L.countP (fun ci => ci.trend == "increasing")) → overallTrend L = "increasing")
    ∧ ((L.countP (fun ci => ci.trend == "increasing")
        < L.countP (fun ci => ci.trend == "decreasing")) → overallTrend L = "decreasing")
    ∧ ((L.countP (fun ci => ci.trend == "increasing")
        = L.countP (fun ci => ci.trend == "decreasing")) → overallTrend L = "stable") := by
  unfold overallTrend
  dsimp only
  split_ifs with h1 h2 <;> refine ⟨?_, ?_, ?_⟩ <;> intro h <;> first | rfl | omega

/-- C3: on a non-empty fetched transaction set, a category whose
per-category forecast raises any error is skipped and excluded from the
aggregation; the overall insights call still succeeds, and it covers
exactly the categories that pass the inclusion test. -/
theorem insights_per_category_failures_absorbed :
    ∀ (linear : Predictor) (store : List Transaction) (user_id : String) (days_ahead : Int),
    get_user_transactions store user_id none ≠ [] →
    ∃ resp, get_spending_insights store linear user_id days_ahead = Except.ok resp ∧
      (∀ c e, linear (catTxns (get_user_transactions store user_id none) c) days_ahead
          = .error e →
        c ∉ resp.categories.map (fun ci => ci.category)) ∧
      (∀ c, c ∈ (get_user_transactions store user_id none).map (fun t => t.category) →
        includedCat linear days_ahead (get_user_transactions store user_id none) c = true →
        c ∈ resp.categories.map (fun ci => ci.category)) := by
  intro linear store uid d h
  refine ⟨_, insights_ok store linear uid d h, ?_, ?_⟩
  · intro c e herr hmem
    rw [show (({ user_id := uid
                 total_predicted_spending := (insightsAcc store linear uid d).2
                 categories := (insightsAcc store linear uid d).1
                 overall_trend := overallTrend (insightsAcc store linear uid d).1 } :
        InsightsResponse)).categories = (insightsAcc store linear uid d).1 from rfl,
      mem_insightsAcc_categories] at hmem
    have hinc := hmem.2
    simp [includedCat, herr] at hinc
  · intro c hc hinc
    rw [show (({ user_id := uid
                 total_predicted_spending := (insightsAcc store linear uid d).2
                 categories := (insightsAcc store linear uid d).1
                 overall_trend := overallTrend (insightsAcc store linear uid d).1 } :
        InsightsResponse)).categories = (insightsAcc store linear uid d).1 from rfl,
      mem_insightsAcc_categories]
    exact ⟨hc, hinc⟩

/-- Witness for C3 at a concrete input. -/
theorem insights_per_category_failures_absorbed_witness :
    ∃ resp, get_spending_insights demoStore modelLinear "u1" 30 = Except.ok resp ∧
      (∀ c e, modelLinear (catTxns (get_user_transactions demoStore "u1" none) c) 30
          = .error e →
        c ∉ resp.categories.map (fun ci => ci.category)) ∧
      (∀ c, c ∈ (get_user_transactions demoStore "u1" none).map (fun t => t.category) →
        includedCat modelLinear 30 (get_user_transactions demoStore "u1" none) c = true →
        c ∈ resp.categories.map (fun ci => ci.category)) :=
  insights_per_category_failures_absorbed modelLinear demoStore "u1" 30 (by decide)

/-- C4: on a non-empty fetched transaction set, every category with
fewer than 2 transactions is skipped without failing the call, and the
total only sums the kept categories' totals. -/
theorem insights_small_categories_skipped :
    ∀ (linear : Predictor) (store : List Transaction) (user_id : String) (days_ahead : Int),
    get_user_transactions store user_id none ≠ [] →
    ∃ resp, get_spending_insights store linear user_id days_ahead = Except.ok resp ∧
      (∀ c, (catTxns (get_user_transactions store user_id none) c).length < 2 →
        c ∉ resp.categories.map (fun ci => ci.category)) ∧
      resp.total_predicted_spending
        = ((((get_user_transactions store user_id none).map (fun t => t.category)).dedup.filter
              (includedCat linear days_ahead (get_user_transactions store user_id none))).map
            (totalFrom linear days_ahead (get_user_transactions store user_id none))).sum := by
  intro linear store uid d h
  refine ⟨_, insights_ok store linear uid d h, ?_, ?_⟩
  · intro c hlen hmem
    rw [show (({ user_id := uid
                 total_predicted_spending := (insightsAcc store linear uid d).2
                 categories := (insightsAcc store linear uid d).1
                 overall_trend := overallTrend (insightsAcc store linear uid d).1 } :
        InsightsResponse)).categories = (insightsAcc store linear uid d).1 from rfl,
      mem_insightsAcc_categories] at hmem
    have hinc := hmem.2
    simp [includedCat, hlen] at hinc
  · exact insightsAcc_total store linear uid d

/-- Witness for C4 at a concrete input. -/
theorem insights_small_categories_skipped_witness :
    ∃ resp, get_spending_insights demoStore modelLinear "u1" 30 = Except.ok resp ∧
      (∀ c, (catTxns (get_user_transactions demoStore "u1" none) c).length < 2 →
        c ∉ resp.categories.map (fun ci => ci.category)) ∧
      resp.total_predicted_spending
        = ((((get_user_transactions demoStore "u1" none).map (fun t => t.category)).dedup.filter
              (includedCat modelLinear 30 (get_user_transactions demoStore "u1" none))).map
            (totalFrom modelLinear 30 (get_user_transactions demoStore "u1" none))).sum :=
  insights_small_categories_skipped modelLinear demoStore "u1" 30 (by decide)

/-- C5: on a successful insights call, `overall_trend` is the strict
majority vote over the kept categories' trends, ties (including zero
kept categories) giving `"stable"`. -/
theorem insights_overall_trend_majority :
    ∀ (linear : Predictor) (store : List Transaction) (user_id : String) (days_ahead : Int),
    get_user_transactions store user_id none ≠ [] →
    ∃ resp, get_spending_insights store linear user_id days_ahead = Except.ok resp ∧
      ((resp.categories.countP (fun ci => ci.trend == "decreasing")
          < resp.categories.countP (fun ci => ci.trend == "increasing") →
        resp.overall_trend = "increasing") ∧
       (resp.categories.countP (fun ci => ci.trend == "increasing")
          < resp.categories.countP (fun ci => ci.trend == "decreasing") →
        resp.overall_trend = "decreasing") ∧
       (resp.categories.countP (fun ci => ci.trend == "increasing")
          = resp.categories.countP (fun ci => ci.trend == "decreasing") →
        resp.overall_trend = "stable")) := by
  intro linear store uid d h
  exact ⟨_, insights_ok store linear uid d h,
    overallTrend_spec (insightsAcc store linear uid d).1⟩

/-- Witness for C5 at a concrete input. -/
theorem insights_overall_trend_majority_witness :
    ∃ resp, get_spending_insights demoStore modelLinear "u1" 30 = Except.ok resp ∧
      ((resp.categories.countP (fun ci => ci.trend == "decreasing")
          < resp.categories.countP (fun ci => ci.trend == "increasing") →
        resp.overall_trend = "increasing") ∧
       (resp.categories.countP (fun ci => ci.trend == "increasing")
          < resp.categories.countP (fun ci => ci.trend == "decreasing") →
        resp.overall_trend = "decreasing") ∧
       (resp.categories.countP (fun ci => ci.trend == "increasing")
          = resp.categories.countP (fun ci => ci.trend == "decreasing") →
        resp.overall_trend = "stable")) :=
  insights_overall_trend_majority modelLinear demoStore "u1" 30 (by decide)

/-- C1: with TensorFlow absent, an explicit `model_type = "lstm"`
request fails — no `ForecastResult` is produced and the linear method is
never silently substituted (neither predictor is even consulted: the
result is the same for every `linear`/`lstm7`) — but the response is a
500 wrapping the raised 503 `HTTPException`, because `predict_expenses`
has no `except HTTPException: raise` clause and its blanket
`except Exception` re-renders the 503 as
`"Prediction error: 503: ..."`. -/
theorem lstm_unavailable_request_fails_no_fallback :
    ∀ (store : List Transaction) (linear lstm7 : Predictor) (request : PredictionRequest),
    request.model_type = "lstm" →
    get_user_transactions store request.user_id request.category ≠ [] →
    predict_expenses store false linear lstm7 request =
      .error ⟨500, "Prediction error: 503: LSTM model not available. TensorFlow is not installed. Using linear regression instead."⟩ := by
  intro store linear lstm7 request hmt h
  have hs : "Prediction error: " ++ strOfExc (PyExc.http 503
        "LSTM model not available. TensorFlow is not installed. Using linear regression instead.")
      = "Prediction error: 503: LSTM model not available. TensorFlow is not installed. Using linear regression instead." := by
    decide
  simp only [predict_expenses, predict_expenses_body, isEmpty_false_of_ne_nil h, hmt,
    Bool.false_eq_true, if_false, beq_self_eq_true, if_true, Bool.not_false]
  rw [hs]

/-- Witness for C1 at a concrete input. -/
theorem lstm_unavailable_request_fails_no_fallback_witness :
    predict_expenses demoStore false modelLinear modelLinear
        { user_id := "u1", category := none, days_ahead := 30, model_type := "lstm" } =
      .error ⟨500, "Prediction error: 503: LSTM model not available. TensorFlow is not installed. Using linear regression instead."⟩ :=
  lstm_unavailable_request_fails_no_fallback demoStore modelLinear modelLinear
    { user_id := "u1", category := none, days_ahead := 30, model_type := "lstm" }
    rfl (by decide)

/-- C6: an empty fetched transaction collection makes both calls fail
with the empty-data error and produce no result — but while
`get_spending_insights` re-raises its 404 unchanged,
`predict_expenses`'s blanket `except Exception` swallows its own 404
`HTTPException` and re-renders it as a 500. -/
theorem empty_data_error_statuses :
    ∀ (store : List Transaction) (tf : Bool) (linear lstm7 : Predictor)
      (request : PredictionRequest) (user_id : String) (days_ahead : Int),
    (get_user_transactions store request.user_id request.category = [] →
      predict_expenses store tf linear lstm7 request =
        .error ⟨500, "Prediction error: 404: No transaction data found for this user"⟩) ∧
    (get_user_transactions store user_id none = [] →
      get_spending_insights store linear user_id days_ahead =
        .error ⟨404, "No transaction data found for this user"⟩) := by
  intro store tf linear lstm7 request uid d
  constructor
  · intro h
    have hs : "Prediction error: " ++ strOfExc (PyExc.http 404
          "No transaction data found for this user")
        = "Prediction error: 404: No transaction data found for this user" := by
      decide
    simp only [predict_expenses, predict_expenses_body, h, List.isEmpty_nil, if_true]
    rw [hs]
  · intro h
    simp [get_spending_insights, h]

/-- Witness for C6 on an empty store. -/
theorem empty_data_error_statuses_witness :
    (predict_expenses [] true modelLinear modelLinear
        { user_id := "u1", category := none, days_ahead := 30, model_type := "linear" } =
      .error ⟨500, "Prediction error: 404: No transaction data found for this user"⟩) ∧
    (get_spending_insights [] modelLinear "u1" 30 =
      .error ⟨404, "No transaction data found for this user"⟩) :=
  ⟨(empty_data_error_statuses [] true modelLinear modelLinear
      { user_id := "u1", category := none, days_ahead := 30, model_type := "linear" }
      "u1" 30).1 rfl,
   (empty_data_error_statuses [] true modelLinear modelLinear
      { user_id := "u1", category := none, days_ahead := 30, model_type := "linear" }
      "u1" 30).2 rfl⟩

/-- C2 counterexample: the insights endpoint performs no validation of
`days_ahead`; with `days_ahead = 366` (outside `1..365`) and a user with
data it succeeds instead of failing with a bad-request-kind error. -/
theorem days_ahead_range_not_enforced_on_insights :
    (get_spending_insights demoStore modelLinear "u1" 366).isOk = true := by
  rw [insights_ok demoStore modelLinear "u1" 366 (by decide)]
  rfl

/-- C2 amended: `days_ahead ∈ 1..365` is enforced only where a
`PredictionRequest` is constructed — the `POST /predict` body validation
(422) and `GET /category` (whose in-handler `ValidationError` is
rendered as a 500); the insights endpoint accepts any `days_ahead` and
succeeds whenever data exists, and the comparison endpoint never
produces a 400-status error at all. -/
theorem days_ahead_validation_scope :
    (∀ (user_id : String) (category : Option String) (days_ahead : Int) (model_type : String),
      (days_ahead < 1 ∨ 365 < days_ahead) →
      PredictionRequest.validate user_id category days_ahead model_type =
        .error "days_ahead out of range 1..365")
    ∧ (∀ (store : List Transaction) (tf : Bool) (linear lstm7 : Predictor)
        (user_id : String) (category : Option String) (days_ahead : Int) (model_type : String),
      (days_ahead < 1 ∨ 365 < days_ahead) →
      predict_expenses_route store tf linear lstm7 user_id category days_ahead model_type =
        .error ⟨422, "Unprocessable Entity"⟩)
    ∧ (∀ (store : List Transaction) (tf : Bool) (linear lstm7 : Predictor)
        (user_id category : String) (days_ahead : Int) (model_type : String),
      (days_ahead < 1 ∨ 365 < days_ahead) →
      predict_category store tf linear lstm7 user_id category days_ahead model_type =
        .error ⟨500, "Internal Server Error"⟩)
    ∧ (∀ (linear : Predictor) (store : List Transaction) (user_id : String) (days_ahead : Int),
      get_user_transactions store user_id none ≠ [] →
      (get_spending_insights store linear user_id days_ahead).isOk = true)
    ∧ (∀ (store : List Transaction) (tf : Bool) (linear lstmD : Predictor)
        (user_id : String) (days_ahead : Int) (e : HTTPError),
      compare_models store tf linear lstmD user_id days_ahead = .error e →
      e.status_code ≠ 400) := by
  have hval : ∀ (user_id : String) (category : Option String) (days_ahead : Int)
      (model_type : String), (days_ahead < 1 ∨ 365 < days_ahead) →
      PredictionRequest.validate user_id category days_ahead model_type =
        .error "days_ahead out of range 1..365" := by
    intro uid cat d mt hd
    have hcond : (decide (d < 1) || decide (d > 365)) = true := by
      rcases hd with h | h <;> simp [h]
    simp [PredictionRequest.validate, hcond]
  refine ⟨hval, ?_, ?_, ?_, ?_⟩
  · intro store tf linear lstm7 uid cat d mt hd
    simp [predict_expenses_route, hval uid cat d mt hd]
  · intro store tf linear lstm7 uid cat d mt hd
    simp [predict_category, hval uid (some cat) d mt hd]
  · intro linear store uid d h
    rw [insights_ok store linear uid d h]
    rfl
  · intro store tf linear lstmD uid d e h
    simp only [compare_models] at h
    split at h
    · injection h with h'
      subst h'
      decide
    · split at h
      · injection h with h'
        subst h'
        simp
      · injection h

/-- Witness for the amended C2 at concrete inputs. -/
theorem days_ahead_validation_scope_witness :
    (PredictionRequest.validate "u1" none 0 "linear" =
      .error "days_ahead out of range 1..365")
    ∧ (predict_expenses_route demoStore true modelLinear modelLinear "u1" none 366 "linear" =
      .error ⟨422, "Unprocessable Entity"⟩)
    ∧ (predict_category demoStore true modelLinear modelLinear "u1" "food" 0 "linear" =
      .error ⟨500, "Internal Server Error"⟩)
    ∧ ((get_spending_insights demoStore modelLinear "u1" 400).isOk = true)
    ∧ ((⟨404, "No transaction data found for this user"⟩ : HTTPError).status_code ≠ 400) :=
  ⟨days_ahead_validation_scope.1 "u1" none 0 "linear" (Or.inl (by decide)),
   days_ahead_validation_scope.2.1 demoStore true modelLinear modelLinear "u1" none 366
     "linear" (Or.inr (by decide)),
   days_ahead_validation_scope.2.2.1 demoStore true modelLinear modelLinear "u1" "food" 0
     "linear" (Or.inl (by decide)),
   days_ahead_validation_scope.2.2.2.1 modelLinear demoStore "u1" 400 (by decide),
   days_ahead_validation_scope.2.2.2.2 [] true modelLinear modelLinear "u1" 366
     ⟨404, "No transaction data found for this user"⟩ rfl⟩

/-- C7: non-expense rows in the stored collection never affect any
endpoint — removing them from the store (keeping only `type = "expense"`
rows) leaves the fetch and every prediction, insight and comparison
result unchanged, for arbitrary predictors. -/
theorem non_expense_rows_never_affect_results :
    ∀ store : List Transaction,
    (∀ (user_id : String) (category : Option String),
      get_user_transactions (store.filter (fun t => t.type == "expense")) user_id category
        = get_user_transactions store user_id category)
    ∧ (∀ (tf : Bool) (linear lstm7 : Predictor) (request : PredictionRequest),
      predict_expenses (store.filter (fun t => t.type == "expense")) tf linear lstm7 request
        = predict_expenses store tf linear lstm7 request)
    ∧ (∀ (linear : Predictor) (user_id : String) (days_ahead : Int),
      get_spending_insights (store.filter (fun t => t.type == "expense")) linear user_id days_ahead
        = get_spending_insights store linear user_id days_ahead)
    ∧ (∀ (tf : Bool) (linear lstmD : Predictor) (user_id : String) (days_ahead : Int),
      compare_models (store.filter (fun t => t.type == "expense")) tf linear lstmD user_id days_ahead
        = compare_models store tf linear lstmD user_id days_ahead)
    ∧ (∀ (tf : Bool) (linear lstm7 : Predictor) (user_id category : String)
        (days_ahead : Int) (model_type : String),
      predict_category (store.filter (fun t => t.type == "expense")) tf linear lstm7
          user_id category days_ahead model_type
        = predict_category store tf linear lstm7 user_id category days_ahead model_type) := by
  intro store
  have hfetch := get_user_transactions_filter_expense store
  have hpe : ∀ (tf : Bool) (linear lstm7 : Predictor) (request : PredictionRequest),
      predict_expenses (store.filter (fun t => t.type == "expense")) tf linear lstm7 request
        = predict_expenses store tf linear lstm7 request := by
    intro tf linear lstm7 request
    simp only [predict_expenses, predict_expenses_body, hfetch]
  refine ⟨hfetch, hpe, ?_, ?_, ?_⟩
  · intro linear uid d
    simp only [get_spending_insights, hfetch]
  · intro tf linear lstmD uid d
    simp only [compare_models, hfetch]
  · intro tf linear lstm7 uid c d mt
    simp only [predict_category, hpe]

/-- C8: the recommendation is a pure function of
`(trend, predicted_avg, current_avg)`: the increasing branch reports
`(predicted_avg − current_avg)/current_avg × 100` (guarded to `0` when
`current_avg = 0`) with a limit suggestion, the decreasing branch the
symmetric percentage with a positive-reinforcement message, and any
other trend the fixed stability message. -/
theorem recommendation_formula :
    ∀ (trend : String) (predicted_avg current_avg : ℚ), 0 ≤ current_avg →
    ((trend = "increasing" → _generate_recommendation trend predicted_avg current_avg
        = recMsgInc (if current_avg = 0 then 0
            else (predicted_avg - current_avg) / current_avg * 100))
    ∧ (trend = "decreasing" → _generate_recommendation trend predicted_avg current_avg
        = recMsgDec (if current_avg = 0 then 0
            else (current_avg - predicted_avg) / current_avg * 100))
    ∧ (trend ≠ "increasing" → trend ≠ "decreasing" →
        _generate_recommendation trend predicted_avg current_avg = recMsgStable)) := by
  intro trend pa ca hca
  rcases eq_or_lt_of_le hca with h0 | hpos
  · refine ⟨?_, ?_, ?_⟩
    · intro ht
      subst ht
      simp [_generate_recommendation, ← h0]
    · intro ht
      subst ht
      simp [_generate_recommendation, ← h0]
    · intro h1 h2
      simp [_generate_recommendation, beq_iff_eq, h1, h2]
  · have hne : ca ≠ 0 := ne_of_gt hpos
    refine ⟨?_, ?_, ?_⟩
    · intro ht
      subst ht
      simp [_generate_recommendation, hpos, hne]
    · intro ht
      subst ht
      simp [_generate_recommendation, hpos, hne]
    · intro h1 h2
      simp [_generate_recommendation, beq_iff_eq, h1, h2]

/-- Witness for C8 at concrete inputs. -/
theorem recommendation_formula_witness :
    (("increasing" : String) = "increasing" →
      _generate_recommendation "increasing" 12 10
        = recMsgInc (if (10 : ℚ) = 0 then 0 else ((12 : ℚ) - 10) / 10 * 100)) ∧
    (("increasing" : String) = "decreasing" →
      _generate_recommendation "increasing" 12 10
        = recMsgDec (if (10 : ℚ) = 0 then 0 else ((10 : ℚ) - 12) / 10 * 100)) ∧
    (("increasing" : String) ≠ "increasing" → ("increasing" : String) ≠ "decreasing" →
      _generate_recommendation "increasing" 12 10 = recMsgStable) :=
  recommendation_formula "increasing" 12 10 (by norm_num)

/-- C9: a `model_type` outside `{linear, lstm}` is rejected by request
validation before any prediction is attempted (the outcome does not
depend on the store or on either predictor), and each of the two
supported values routes the call to the corresponding predictor. -/
theorem model_type_validation_and_selection :
    (∀ (user_id : String) (category : Option String) (days_ahead : Int) (model_type : String)
       (store : List Transaction) (tf : Bool) (linear lstm7 : Predictor),
      validModelType model_type = false →
      predict_expenses_route store tf linear lstm7 user_id category days_ahead model_type
        = .error ⟨422, "Unprocessable Entity"⟩)
    ∧ (∀ (store : List Transaction) (tf : Bool) (linear lstm7 : Predictor)
        (request : PredictionRequest) (r : ForecastResult),
      request.model_type = "linear" →
      get_user_transactions store request.user_id request.category ≠ [] →
      linear (get_user_transactions store request.user_id request.category) request.days_ahead
        = .ok r →
      predict_expenses store tf linear lstm7 request =
        .ok { user_id := request.user_id
              category := request.category
              predictions := r.predictions
              model_type := request.model_type
              accuracy_score := r.accuracy_score
              total_predicted := r.total_predicted
              avg_daily_spending := r.avg_daily_spending
              trend := r.trend })
    ∧ (∀ (store : List Transaction) (linear lstm7 : Predictor)
        (request : PredictionRequest) (r : ForecastResult),
      request.model_type = "lstm" →
      get_user_transactions store request.user_id request.category ≠ [] →
      lstm7 (get_user_transactions store request.user_id request.category) request.days_ahead
        = .ok r →
      predict_expenses store true linear lstm7 request =
        .ok { user_id := request.user_id
              category := request.category
              predictions := r.predictions
              model_type := request.model_type
              accuracy_score := r.accuracy_score
              total_predicted := r.total_predicted
              avg_daily_spending := r.avg_daily_spending
              trend := r.trend }) := by
  refine ⟨?_, ?_, ?_⟩
  · intro uid cat d mt store tf linear lstm7 hmt
    unfold predict_expenses_route PredictionRequest.validate
    rw [hmt]
    by_cases hd : (decide (d < 1) || decide (d > 365)) = true
    · rw [if_pos hd]
    · rw [if_neg hd]
      rfl
  · intro store tf linear lstm7 request r hmt h hok
    have hb : (("linear" : String) == "lstm") = false := by decide
    simp only [predict_expenses, predict_expenses_body, isEmpty_false_of_ne_nil h,
      Bool.false_eq_true, if_false, hmt, hb, hok]
  · intro store linear lstm7 request r hmt h hok
    have hb : (("lstm" : String) == "lstm") = true := by decide
    simp only [predict_expenses, predict_expenses_body, isEmpty_false_of_ne_nil h,
      Bool.false_eq_true, if_false, hmt, hb, if_true, Bool.not_true, hok]

/-- Witness for C9 at concrete inputs (constant predictors supply the
oracle hypotheses). -/
theorem model_type_validation_and_selection_witness :
    (predict_expenses_route demoStore true modelLinear modelLinear "u1" none 30 "quadratic"
      = .error ⟨422, "Unprocessable Entity"⟩)
    ∧ (predict_expenses demoStore false (fun _ _ => .ok demoForecast)
          (fun _ _ => .ok demoForecast)
          { user_id := "u1", category := none, days_ahead := 30, model_type := "linear" } =
        .ok { user_id := "u1"
              category := none
              predictions := demoForecast.predictions
              model_type := "linear"
              accuracy_score := demoForecast.accuracy_score
              total_predicted := demoForecast.total_predicted
              avg_daily_spending := demoForecast.avg_daily_spending
              trend := demoForecast.trend })
    ∧ (predict_expenses demoStore true (fun _ _ => .ok demoForecast)
          (fun _ _ => .ok demoForecast)
          { user_id := "u1", category := none, days_ahead := 30, model_type := "lstm" } =
        .ok { user_id := "u1"
              category := none
              predictions := demoForecast.predictions
              model_type := "lstm"
              accuracy_score := demoForecast.accuracy_score
              total_predicted := demoForecast.total_predicted
              avg_daily_spending := demoForecast.avg_daily_spending
              trend := demoForecast.trend }) :=
  ⟨model_type_validation_and_selection.1 "u1" none 30 "quadratic" demoStore true
     modelLinear modelLinear rfl,
   model_type_validation_and_selection.2.1 demoStore false (fun _ _ => .ok demoForecast)
     (fun _ _ => .ok demoForecast)
     { user_id := "u1", category := none, days_ahead := 30, model_type := "linear" }
     demoForecast rfl (by decide) rfl,
   model_type_validation_and_selection.2.2 demoStore (fun _ _ => .ok demoForecast)
     (fun _ _ => .ok demoForecast)
     { user_id := "u1", category := none, days_ahead := 30, model_type := "lstm" }
     demoForecast rfl (by decide) rfl⟩

/-- C10: for parameters accepted by request validation, the GET
category-prediction endpoint behaves exactly like the POST prediction
endpoint invoked with the `PredictionRequest` built from the same four
values. -/
theorem get_category_equals_post_predict :
    ∀ (store : List Transaction) (tf : Bool) (linear lstm7 : Predictor)
      (user_id category : String) (days_ahead : Int) (model_type : String)
      (request : PredictionRequest),
    PredictionRequest.validate user_id (some category) days_ahead model_type = .ok request →
    predict_category store tf linear lstm7 user_id category days_ahead model_type
        = predict_expenses store tf linear lstm7 request
    ∧ predict_category store tf linear lstm7 user_id category days_ahead model_type
        = predict_expenses_route store tf linear lstm7 user_id (some category)
            days_ahead model_type := by
  intro store tf linear lstm7 uid cat d mt request hval
  constructor
  · simp only [predict_category, hval]
  · simp only [predict_category, predict_expenses_route, hval]

/-- Witness for C10 at a concrete validated input. -/
theorem get_category_equals_post_predict_witness :
    predict_category demoStore true modelLinear modelLinear "u1" "food" 30 "linear"
        = predict_expenses demoStore true modelLinear modelLinear
            { user_id := "u1", category := some "food", days_ahead := 30, model_type := "linear" }
    ∧ predict_category demoStore true modelLinear modelLinear "u1" "food" 30 "linear"
        = predict_expenses_route demoStore true modelLinear modelLinear "u1" (some "food")
            30 "linear" :=
  get_category_equals_post_predict demoStore true modelLinear modelLinear "u1" "food" 30
    "linear" { user_id := "u1", category := some "food", days_ahead := 30, model_type := "linear" }
    rfl

end SaveMyMoney
